import Mathlib

/-!
Shallow embedding of the GLS SEO dashboard's logical core, translated from
the TypeScript sources of the repository:

* `src/src/components/SEODashboard.tsx` (the main component), and
* the near-duplicate variants `src/unnamed/part_000` .. `part_003`.

Numeric values (`number` in TypeScript) are modelled as exact rationals `ℚ`;
angles produced by the pie-chart generators are interpreted as real numbers
via `Real.pi`.  Fallible operations are modelled with `Option`/`Except`.

The file is organised as definitions first (the embedding), then theorems.
-/

namespace SEODash

/-! ## Pie geometry, total-normalizing variant

Embedding of the `PieChart` component of `src/unnamed/part_002`
(lines 69-96) and `src/unnamed/part_003` (lines 88-113): it computes
`total = data.reduce((s, x) => s + x.percent, 0)`, keeps a running
cumulative sum `acc`, and for each entry emits one SVG path with
`start = (acc / total) * 2π - π/2`, `end = ((acc + value) / total) * 2π - π/2`
and large-arc flag `value / total > 0.5`.  A slice is stored by the two
fractions of the full turn (the angle is recovered by `Slice.startAngle` /
`Slice.endAngle` below) together with its large-arc flag. -/

structure Slice where
  startFrac : ℚ
  endFrac : ℚ
  largeArc : Bool
  deriving Repr, DecidableEq

namespace PieChartV2

/-- One slice per entry, in input order; `acc` is the running cumulative sum
(`acc += d.percent` after computing the two angles), `total` the fixed sum of
all values. -/
def slicesAux (total : ℚ) : ℚ → List ℚ → List Slice
  | _, [] => []
  | acc, v :: vs =>
    { startFrac := acc / total
      endFrac := (acc + v) / total
      largeArc := decide ((1 : ℚ) / 2 < v / total) } :: slicesAux total (acc + v) vs

/-- `PieChart` of `part_002`/`part_003`: `total` is the sum of the values and
the cumulative sum starts at `0`. -/
def slices (vals : List ℚ) : List Slice :=
  slicesAux vals.sum 0 vals

end PieChartV2

/-- The start angle encoded by a slice, in radians:
`startFrac * 2π - π/2` (the source computes this number directly). -/
noncomputable def Slice.startAngle (s : Slice) : ℝ :=
  (s.startFrac : ℝ) * (2 * Real.pi) - Real.pi / 2

/-- The end angle encoded by a slice, in radians. -/
noncomputable def Slice.endAngle (s : Slice) : ℝ :=
  (s.endFrac : ℝ) * (2 * Real.pi) - Real.pi / 2

/-- Angular span of a slice. -/
noncomputable def Slice.span (s : Slice) : ℝ :=
  s.endAngle - s.startAngle

/-- Span of a slice as a fraction of the full turn (exact rational). -/
def Slice.spanFrac (s : Slice) : ℚ :=
  s.endFrac - s.startFrac

/-! ## Pie geometry, main-file variant

Embedding of the `PieChart` component of
`src/src/components/SEODashboard.tsx` (lines 316-382).  This variant does
not compute a total: `startAngle = (cumulativePercentage * 360) / 100 - 90`
degrees, i.e. the fraction of the full turn is `cumulativePercentage / 100`.
The cumulative sum is advanced (`cumulativePercentage += percentage`) before
the guard `if (percentage < 0.1) return null`, and `null` entries are removed
by `.filter(Boolean)`, so slices with value below `0.1` are skipped but still
advance the cumulative sum.  The large-arc flag is `percentage > 50`. -/

namespace PieChartMain

/-- One pass of the `data.map(...).filter(Boolean)` pipeline; `cum` is
`cumulativePercentage`. -/
def slicesAux : ℚ → List ℚ → List Slice
  | _, [] => []
  | cum, v :: vs =>
    let rest := slicesAux (cum + v) vs
    if v < 1 / 10 then rest
    else
      { startFrac := cum / 100
        endFrac := (cum + v) / 100
        largeArc := decide ((50 : ℚ) < v) } :: rest

/-- `PieChart` of `SEODashboard.tsx`: the cumulative percentage starts at
`0`; all divisions are by the constant `100`. -/
def slices (vals : List ℚ) : List Slice :=
  slicesAux 0 vals

end PieChartMain

/-! ## TTL cache

Embedding of the single-slot `useCache` hook of `src/unnamed/part_002`
(lines 51-56):

* state: `ref.current = { data?: T, timestamp: number }`, initially
  `{ timestamp: 0 }` (no data);
* `get = () => Date.now() - ref.current.timestamp < ttl ? ref.current.data
  : undefined`;
* `set = (data) => { ref.current = { data, timestamp: Date.now() } }`;
* default `ttl = 300000` milliseconds (5 minutes).

Timestamps (`Date.now()`) are modelled as integers. -/

namespace useCache

/-- The mutable `ref.current` cell. -/
structure CacheState (α : Type) where
  data : Option α
  timestamp : ℤ
  deriving Repr, DecidableEq

/-- Initial cell `{ timestamp: 0 }`: no data, timestamp 0. -/
def init (α : Type) : CacheState α := { data := none, timestamp := 0 }

/-- The default TTL, `300000` ms = 5 minutes. -/
def defaultTtl : ℤ := 300000

/-- `get` at clock value `now`. -/
def get (ttl : ℤ) (now : ℤ) (s : CacheState α) : Option α :=
  if now - s.timestamp < ttl then s.data else none

/-- `set` at clock value `now`: unconditionally replaces the cell. -/
def set (now : ℤ) (d : α) (_ : CacheState α) : CacheState α :=
  { data := some d, timestamp := now }

end useCache

/-! ## Pagination calculator

Embedding of `usePagination` of `src/src/components/SEODashboard.tsx`
(lines 92-142):

* `pages = Math.ceil(total / pageSize)`;
* `start = (currentPage - 1) * pageSize`, `end = Math.min(start + pageSize,
  total)`, `paginatedData = data.slice(start, end)`;
* `startItem = total === 0 ? 0 : start + 1`, `endItem = end`;
* `goToPage(page) = setCurrentPage(Math.max(1, Math.min(page, totalPages)))`;
* `hasNextPage = currentPage < totalPages`, `hasPreviousPage =
  currentPage > 1`;
* `changePageSize(size)` sets the page size to `size` and the current page
  to `1` (lines 123-126).

Item counts and page sizes are naturals; page numbers are integers
(`goToPage` accepts any integer). -/

namespace usePagination

/-- `Math.ceil(total / pageSize)` with exact rational division. -/
def totalPages (total size : ℕ) : ℤ := ⌈(total : ℚ) / (size : ℚ)⌉

/-- `data.slice(start, end)` with `start = (page-1)*size` and
`end = Math.min(start + size, total)`; `slice(start, end)` keeps the items
at indices `[start, end)`, i.e. drops `start` items and takes the next
`end - start`. -/
def paginatedData (items : List α) (page size : ℕ) : List α :=
  (items.drop ((page - 1) * size)).take
    (min ((page - 1) * size + size) items.length - (page - 1) * size)

/-- `total === 0 ? 0 : (page-1)*size + 1`. -/
def startItem (total page size : ℕ) : ℕ :=
  if total = 0 then 0 else (page - 1) * size + 1

/-- `Math.min((page-1)*size + size, total)`. -/
def endItem (total page size : ℕ) : ℕ :=
  min ((page - 1) * size + size) total

/-- `currentPage < totalPages`. -/
def hasNextPage (page tp : ℤ) : Bool := page < tp

/-- `currentPage > 1`. -/
def hasPreviousPage (page : ℤ) : Bool := 1 < page

/-- `goToPage(page) = setCurrentPage(Math.max(1, Math.min(page,
totalPages)))` (lines 111-113; identical in `src/unnamed/part_003`
lines 133-135). -/
def goToPage (tp : ℤ) (page : ℤ) : ℤ := max 1 (min page tp)

/-- The `currentPage`/`pageSize` state pair of the hook. -/
structure PaginationState where
  currentPage : ℤ
  pageSize : ℕ
  deriving Repr, DecidableEq

/-- `useState(1)`: the current page starts at 1. -/
def initialPage : ℤ := 1

/-- `changePageSize(size)`: `setPageSize(size); setCurrentPage(1)`. -/
def changePageSize (size : ℕ) (_ : PaginationState) : PaginationState :=
  { currentPage := 1, pageSize := size }

end usePagination

/-! ## Data model

The row types of `src/src/components/SEODashboard.tsx` (lines 4-54),
field for field.  `number` fields are modelled as `ℚ`. -/

structure DomainInfo where
  country_name : String
  country_code : String
  domain_name : String
  total_keywords : ℚ
  total_keywords_brand : ℚ
  total_keywords_non_brand : ℚ
  avg_difficulty_brand : ℚ
  avg_difficulty_non_brand : ℚ
  nb_big_kw_opportunities : ℚ
  deriving Repr, DecidableEq

/-- A keyword-type row as returned by the API, before a display color is
attached. -/
structure KeywordTypeIn where
  country_code : String
  name : String
  percent : ℚ
  deriving Repr, DecidableEq

/-- `KeywordType` of the main file: an API row plus the assigned color. -/
structure KeywordType where
  country_code : String
  name : String
  percent : ℚ
  color : String
  deriving Repr, DecidableEq

structure LongTailKeyword where
  country_code : String
  keyword : String
  tag : String
  position : ℚ
  volume : ℚ
  difficulty : ℚ
  traffic : ℚ
  CPC : ℚ
  position_type : String
  intent : String
  deriving Repr, DecidableEq

structure Competitor where
  country_code : String
  country_name : String
  domain : String
  competitor_relevance : ℚ
  common_keywords : ℚ
  organic_keywords : ℚ
  organic_traffic : ℚ
  organic_cost : ℚ
  google_ads_keywords : ℚ
  deriving Repr, DecidableEq

structure SEOData where
  domainInfo : List DomainInfo
  keywordTypesBrand : List KeywordType
  keywordTypesNonBrand : List KeywordType
  longTailKeywords : List LongTailKeyword
  competitors : List Competitor
  deriving Repr, DecidableEq

/-! ## Fetch and normalize

Embedding of `APIService.fetchSEOData` of
`src/src/components/SEODashboard.tsx` (lines 260-314).  The five endpoint
round-trips (request, JSON parse, envelope unwrap) happen outside the
program logic and are modelled as five `Except`-valued inputs, a value
`Except.error e` standing for a failed or malformed round-trip.
`Promise.all` rejects with the first failure, so the assembly runs only if
all five inputs succeeded; the `catch` block rethrows, preserving the
error.  The color-map step (`keywordColors[item.name] || '#666666'`) is
translated literally. -/

namespace APIService

/-- `keywordColors` lookup with fallback `'#666666'`. -/
def keywordColors (name : String) : String :=
  if name = "Informational" then "#061ab1"
  else if name = "Commercial" then "#4d5fc7"
  else if name = "Transactional" then "#F59E0B"
  else if name = "Navigational" then "#94a3b8"
  else "#666666"

/-- `{ ...item, color: keywordColors[item.name] || '#666666' }`. -/
def withColor (it : KeywordTypeIn) : KeywordType :=
  { country_code := it.country_code
    name := it.name
    percent := it.percent
    color := keywordColors it.name }

/-- `fetchSEOData`, given the outcome of the five endpoint round-trips.
`Promise.all` rejects with the first failure in endpoint order; on success
the five envelopes are unwrapped and the two keyword-type lists get their
display colors. -/
def fetchSEOData (dom : Except String (List DomainInfo))
    (br nbr : Except String (List KeywordTypeIn))
    (lt : Except String (List LongTailKeyword))
    (cp : Except String (List Competitor)) : Except String SEOData :=
  match dom, br, nbr, lt, cp with
  | Except.error e, _, _, _, _ => Except.error e
  | _, Except.error e, _, _, _ => Except.error e
  | _, _, Except.error e, _, _ => Except.error e
  | _, _, _, Except.error e, _ => Except.error e
  | _, _, _, _, Except.error e => Except.error e
  | Except.ok domainInfo, Except.ok keywordTypesBrand,
      Except.ok keywordTypesNonBrand, Except.ok longTailKeywords,
      Except.ok competitors =>
    Except.ok { domainInfo := domainInfo
                keywordTypesBrand := keywordTypesBrand.map withColor
                keywordTypesNonBrand := keywordTypesNonBrand.map withColor
                longTailKeywords := longTailKeywords
                competitors := competitors }

end APIService

/-! ## Selection and derived view

Embedding of the selection machinery and `transformedData` of
`src/src/components/SEODashboard.tsx` (lines 395-400 and 449-478). -/

/-- One entry of the static `countries` array. -/
structure Country where
  code : String
  name : String
  native : String
  english : String
  deriving Repr, DecidableEq

/-- The `countries` array (lines 395-400). -/
def countries : List Country :=
  [ { code := "PL", name := "Poland", native := "PL-PL", english := "PL-EN" }
  , { code := "ES", name := "Spain", native := "ES-ES", english := "ES-EN" }
  , { code := "FR", name := "France", native := "FR-FR", english := "FR-EN" }
  , { code := "DE", name := "Germany", native := "DE-DE", english := "DE-EN" } ]

/-- `countries.find(c => c.code === selectedCountry)`. -/
def getCurrentCountry (selectedCountry : String) : Option Country :=
  countries.find? (fun c => c.code = selectedCountry)

/-- `selectedLanguage === 'native' ? country?.native : country?.english`. -/
def getCurrentTag (selectedCountry selectedLanguage : String) :
    Option String :=
  (getCurrentCountry selectedCountry).map
    (fun c => if selectedLanguage = "native" then c.native else c.english)

/-- The derived view record returned by the `transformedData` memo. -/
structure TransformedData where
  domainInfo : Option DomainInfo
  brandKeywords : List KeywordType
  nonBrandKeywords : List KeywordType
  longTailKeywords : List LongTailKeyword
  competitors : List Competitor
  deriving Repr, DecidableEq

/-- `transformedData` (lines 458-478): on `data = null` everything is
empty; otherwise `domainInfo` is looked up by the composite tag,
brand/non-brand/long-tail rows are filtered by the composite tag, and
competitors are filtered by the bare selected country code. -/
def transformedData :
    Option SEOData → String → String → TransformedData
  | none, _, _ =>
    { domainInfo := none, brandKeywords := [], nonBrandKeywords := []
      longTailKeywords := [], competitors := [] }
  | some d, selectedCountry, selectedLanguage =>
    { domainInfo := d.domainInfo.find?
        (fun x => some x.country_code =
          getCurrentTag selectedCountry selectedLanguage)
      brandKeywords := d.keywordTypesBrand.filter
        (fun k => some k.country_code =
          getCurrentTag selectedCountry selectedLanguage)
      nonBrandKeywords := d.keywordTypesNonBrand.filter
        (fun k => some k.country_code =
          getCurrentTag selectedCountry selectedLanguage)
      longTailKeywords := d.longTailKeywords.filter
        (fun k => some k.country_code =
          getCurrentTag selectedCountry selectedLanguage)
      competitors := d.competitors.filter
        (fun c => c.country_code = selectedCountry) }

/-- A small concrete dataset used to instantiate the derived-view theorem
at a specific input. -/
def sampleData : SEOData :=
  { domainInfo :=
      [ { country_name := "Poland", country_code := "PL-PL"
          domain_name := "gls-group.com/PL", total_keywords := 1200
          total_keywords_brand := 400, total_keywords_non_brand := 800
          avg_difficulty_brand := 25, avg_difficulty_non_brand := 40
          nb_big_kw_opportunities := 12 } ]
    keywordTypesBrand :=
      [ { country_code := "PL-PL", name := "Informational", percent := 70
          color := "#061ab1" }
      , { country_code := "PL-EN", name := "Commercial", percent := 30
          color := "#4d5fc7" } ]
    keywordTypesNonBrand := []
    longTailKeywords := []
    competitors :=
      [ { country_code := "PL", country_name := "Poland"
          domain := "dpd.com.pl", competitor_relevance := 1/2
          common_keywords := 100, organic_keywords := 5000
          organic_traffic := 20000, organic_cost := 1500
          google_ads_keywords := 50 } ] }

/-! ## Theorems -/

theorem Slice.span_eq_spanFrac (s : Slice) :
    s.span = (s.spanFrac : ℝ) * (2 * Real.pi) := by
  simp only [Slice.span, Slice.endAngle, Slice.startAngle, Slice.spanFrac]
  push_cast
  ring

theorem PieChartV2.slicesAux_length (total : ℚ) (vs : List ℚ) (acc : ℚ) :
    (slicesAux total acc vs).length = vs.length := by
  induction vs generalizing acc with
  | nil => rfl
  | cons v vs ih => simp [slicesAux, ih]

theorem PieChartV2.slices_length (vals : List ℚ) :
    (slices vals).length = vals.length :=
  slicesAux_length _ _ _

/-- The `i`-th emitted slice of `slicesAux`: start fraction
`(acc + sum of the first i values) / total`, end fraction
`(acc + sum of the first i+1 values) / total`, large-arc flag from the
`i`-th value alone. -/
theorem PieChartV2.slicesAux_get (total : ℚ) (vs : List ℚ) (acc : ℚ)
    (i : ℕ) (hi : i < vs.length) :
    (slicesAux total acc vs).get ⟨i, by rw [slicesAux_length]; exact hi⟩ =
      { startFrac := (acc + (vs.take i).sum) / total
        endFrac := (acc + (vs.take (i + 1)).sum) / total
        largeArc := decide ((1 : ℚ) / 2 < vs.get ⟨i, hi⟩ / total) } := by
  induction vs generalizing acc i with
  | nil => exact absurd hi (by simp)
  | cons v vs ih =>
    cases i with
    | zero => simp [slicesAux]
    | succ j =>
      have hj : j < vs.length := Nat.lt_of_succ_lt_succ hi
      have key := ih (acc + v) j hj
      simp only [slicesAux, List.get_cons_succ, key, List.take_succ_cons,
        List.sum_cons]
      simp only [add_assoc]

/-- Telescoping: the span fractions of `slicesAux total acc vs` sum to
`(acc + vs.sum) / total - acc / total` (true even for `total = 0` since
`x / 0 = 0` in `ℚ`). -/
theorem PieChartV2.slicesAux_spanFrac_sum (total : ℚ) (vs : List ℚ) (acc : ℚ) :
    ((slicesAux total acc vs).map Slice.spanFrac).sum =
      (acc + vs.sum) / total - acc / total := by
  induction vs generalizing acc with
  | nil => simp [slicesAux]
  | cons v vs ih =>
    simp only [slicesAux, List.map_cons, List.sum_cons, ih (acc + v),
      Slice.spanFrac, List.sum_cons]
    rw [div_sub_div_same, div_sub_div_same, div_sub_div_same]
    ring_nf

theorem PieChartV2.slices_spanFrac_sum (vals : List ℚ) (h : vals.sum ≠ 0) :
    ((slices vals).map Slice.spanFrac).sum = 1 := by
  rw [slices, slicesAux_spanFrac_sum]
  rw [zero_add, zero_div, sub_zero, div_self h]

theorem PieChartV2.sum_map_span (l : List Slice) :
    (l.map Slice.span).sum =
      (((l.map Slice.spanFrac).sum : ℚ) : ℝ) * (2 * Real.pi) := by
  induction l with
  | nil => simp
  | cons s l ih =>
    simp only [List.map_cons, List.sum_cons, ih, Slice.span_eq_spanFrac]
    push_cast
    ring

theorem PieChartMain.slicesAux_eq_nil_of_all_zero (vs : List ℚ) (cum : ℚ)
    (h : ∀ v ∈ vs, v = 0) : slicesAux cum vs = [] := by
  induction vs generalizing cum with
  | nil => rfl
  | cons v vs ih =>
    have hv : v = 0 := h v (List.mem_cons_self ..)
    subst hv
    have hrest := ih (cum + 0) fun w hw => h w (List.mem_cons_of_mem _ hw)
    simp only [slicesAux]
    rw [if_pos (by norm_num)]
    exact hrest

/-- A list of nonnegative rationals summing to zero is all zeros. -/
theorem all_zero_of_nonneg_of_sum_eq_zero (vs : List ℚ)
    (h0 : ∀ v ∈ vs, 0 ≤ v) (hsum : vs.sum = 0) : ∀ v ∈ vs, v = 0 := by
  induction vs with
  | nil => intro v hv; exact absurd hv (by simp)
  | cons v vs ih =>
    have hv : 0 ≤ v := h0 v (List.mem_cons_self ..)
    have hvs : ∀ w ∈ vs, 0 ≤ w := fun w hw => h0 w (List.mem_cons_of_mem _ hw)
    have hsum' : v + vs.sum = 0 := by simpa using hsum
    have hs : 0 ≤ vs.sum := List.sum_nonneg hvs
    have hv0 : v = 0 := le_antisymm (by linarith) hv
    have hrec := ih hvs (by linarith)
    intro w hw
    rcases List.mem_cons.mp hw with h | h
    · exact h ▸ hv0
    · exact hrec w h

/-- Claim C1: for positive values, the pie geometry generator of
`src/unnamed/part_002` / `part_003` emits one slice per entry in input
order, the `i`-th slice having
`startAngle = (cumulative / total) * 2π - π/2` and
`endAngle = ((cumulative + value) / total) * 2π - π/2` where `cumulative`
is the sum of the first `i` values and `total` the sum of all values; the
angular spans of the emitted slices sum to exactly `2π`, and a single-entry
input produces one slice spanning the full circle. -/
theorem C1_pie_slices_angles_and_span (vals : List ℚ)
    (hne : vals ≠ []) (hpos : ∀ v ∈ vals, 0 < v) :
    (PieChartV2.slices vals).length = vals.length ∧
    (∀ (i : ℕ) (hi : i < vals.length),
      ((PieChartV2.slices vals).get
          ⟨i, by rw [PieChartV2.slices_length]; exact hi⟩).startAngle =
        ((((vals.take i).sum / vals.sum : ℚ) : ℝ) * (2 * Real.pi) -
          Real.pi / 2) ∧
      ((PieChartV2.slices vals).get
          ⟨i, by rw [PieChartV2.slices_length]; exact hi⟩).endAngle =
        (((((vals.take i).sum + vals.get ⟨i, hi⟩) / vals.sum : ℚ) : ℝ) *
            (2 * Real.pi) - Real.pi / 2)) ∧
    ((PieChartV2.slices vals).map Slice.span).sum = 2 * Real.pi ∧
    (∀ (h1 : vals.length = 1),
      ((PieChartV2.slices vals).get
          ⟨0, by rw [PieChartV2.slices_length, h1]; norm_num⟩).span =
        2 * Real.pi) := by
  have htot : 0 < vals.sum := by
    rcases vals with _ | ⟨v, vs⟩
    · exact absurd rfl hne
    · have hv := hpos v (List.mem_cons_self ..)
      have hs : 0 ≤ List.sum vs :=
        List.sum_nonneg fun w hw => le_of_lt (hpos w (List.mem_cons_of_mem _ hw))
      simpa using by linarith
  have htot' : vals.sum ≠ 0 := ne_of_gt htot
  refine ⟨PieChartV2.slices_length vals, ?_, ?_, ?_⟩
  · intro i hi
    have hget := PieChartV2.slicesAux_get vals.sum vals 0 i hi
    unfold PieChartV2.slices
    rw [hget]
    constructor
    · simp [Slice.startAngle]
    · rw [show ((vals.take (i + 1)).sum : ℚ) =
          (vals.take i).sum + vals.get ⟨i, hi⟩ by
        simpa using List.sum_take_succ vals i hi]
      simp [Slice.endAngle]
  · rw [PieChartV2.sum_map_span, PieChartV2.slices_spanFrac_sum vals htot']
    norm_num
  · intro h1
    have hi0 : 0 < vals.length := by omega
    have hget := PieChartV2.slicesAux_get vals.sum vals 0 0 hi0
    unfold PieChartV2.slices
    rw [hget, Slice.span_eq_spanFrac]
    have hv : vals.take 1 = vals := by
      rw [← h1, List.take_length]
    have : (vals.take 0).sum = 0 := by simp
    simp only [Slice.spanFrac, this, zero_add, hv, div_self htot', zero_div,
      sub_zero]
    norm_num

/-- Witness for C1 at the concrete input `[3, 5]`. -/
theorem C1_witness :
    (([3, 5] : List ℚ) ≠ [] ∧ ∀ v ∈ ([3, 5] : List ℚ), 0 < v) ∧
    ((PieChartV2.slices [3, 5]).map Slice.span).sum = 2 * Real.pi :=
  ⟨⟨by simp, by norm_num⟩,
    (C1_pie_slices_angles_and_span [3, 5] (by simp) (by norm_num)).2.2.1⟩

/-- Claim C2: in the pie geometry generator of `src/unnamed/part_002` /
`part_003`, a slice's large-arc flag is set if and only if its value
exceeds half of the total of all input values (its share exceeds 50%);
every other slice has the flag unset. -/
theorem C2_large_arc_iff_share_gt_half (vals : List ℚ)
    (hne : vals ≠ []) (hpos : ∀ v ∈ vals, 0 < v)
    (i : ℕ) (hi : i < vals.length) :
    ((PieChartV2.slices vals).get
        ⟨i, by rw [PieChartV2.slices_length]; exact hi⟩).largeArc = true ↔
      vals.sum < 2 * vals.get ⟨i, hi⟩ := by
  have htot : 0 < vals.sum := by
    rcases vals with _ | ⟨v, vs⟩
    · exact absurd rfl hne
    · have hv := hpos v (List.mem_cons_self ..)
      have hs : 0 ≤ List.sum vs :=
        List.sum_nonneg fun w hw => le_of_lt (hpos w (List.mem_cons_of_mem _ hw))
      simpa using by linarith
  have hget := PieChartV2.slicesAux_get vals.sum vals 0 i hi
  unfold PieChartV2.slices
  rw [hget]
  simp only [decide_eq_true_eq]
  rw [div_lt_div_iff₀ (by norm_num) htot]
  constructor <;> intro h <;> linarith

/-- Witness for C2 at the concrete input `[3, 5]`, slice `1`
(value `5`, share `5/8 > 1/2`). -/
theorem C2_witness :
    (([3, 5] : List ℚ) ≠ [] ∧ (∀ v ∈ ([3, 5] : List ℚ), 0 < v) ∧
      1 < ([3, 5] : List ℚ).length) ∧
    (((PieChartV2.slices [3, 5]).get ⟨1, by decide⟩).largeArc = true ↔
      ([3, 5] : List ℚ).sum < 2 * ([3, 5] : List ℚ).get ⟨1, by decide⟩) :=
  ⟨⟨by simp, by norm_num, by decide⟩,
    C2_large_arc_iff_share_gt_half [3, 5] (by simp) (by norm_num) 1 (by decide)⟩

/-- Claim C3: for an input of nonnegative percent values summing to zero
(in particular an all-zero input), the `PieChart` generator of
`src/src/components/SEODashboard.tsx` emits no slices at all (every zero
slice falls under the `percentage < 0.1` guard); since no slice is emitted
and the only divisions in this variant are by the constant `100`, no NaN or
Infinity coordinate can be produced. -/
theorem C3_zero_total_emits_nothing (vals : List ℚ)
    (h0 : ∀ v ∈ vals, 0 ≤ v) (hsum : vals.sum = 0) :
    PieChartMain.slices vals = [] :=
  PieChartMain.slicesAux_eq_nil_of_all_zero vals 0
    (all_zero_of_nonneg_of_sum_eq_zero vals h0 hsum)

/-- Witness for C3 at the concrete all-zero input `[0, 0, 0]`. -/
theorem C3_witness :
    ((∀ v ∈ ([0, 0, 0] : List ℚ), 0 ≤ v) ∧ ([0, 0, 0] : List ℚ).sum = 0) ∧
    PieChartMain.slices [0, 0, 0] = [] :=
  ⟨⟨by norm_num, by simp⟩,
    C3_zero_total_emits_nothing [0, 0, 0] (by norm_num) (by simp)⟩

/-- Claim C4: for the TTL cache of `src/unnamed/part_002` with positive
`ttl` (the default is 5 minutes), `set(d)` followed by an immediate `get()`
(same clock value) returns exactly `d`; any `get()` performed when
`now - capturedAt` is at least `ttl` returns absent; and `set` replaces the
stored dataset and timestamp regardless of the prior cell content. -/
theorem C4_cache_set_get_ttl {α : Type} (ttl now : ℤ) (d : α)
    (s : useCache.CacheState α) (httl : 0 < ttl) :
    useCache.get ttl now (useCache.set now d s) = some d ∧
    (∀ (now' : ℤ) (s' : useCache.CacheState α),
      ttl ≤ now' - s'.timestamp → useCache.get ttl now' s' = none) ∧
    useCache.set now d s = { data := some d, timestamp := now } := by
  refine ⟨?_, ?_, rfl⟩
  · simp only [useCache.get, useCache.set]
    rw [if_pos (by omega)]
  · intro now' s' h
    simp only [useCache.get]
    rw [if_neg (by omega)]

/-- Witness for C4: default TTL, clock 1000, dataset `42`, starting from
the initial cell. -/
theorem C4_witness :
    0 < useCache.defaultTtl ∧
    useCache.get useCache.defaultTtl 1000
      (useCache.set 1000 42 (useCache.init ℕ)) = some 42 :=
  ⟨by decide,
    (C4_cache_set_get_ttl useCache.defaultTtl 1000 42 (useCache.init ℕ)
      (by decide)).1⟩

/-- `Math.ceil(total / size)` coincides with natural ceiling division
`(total + size - 1) / size` for positive `size`. -/
theorem usePagination.totalPages_eq_ceilDiv (N S : ℕ) (hS : 0 < S) :
    totalPages N S = (((N + S - 1) / S : ℕ) : ℤ) := by
  have hS' : (0 : ℚ) < (S : ℚ) := by exact_mod_cast hS
  set q := (N + S - 1) / S with hq
  have hdm := Nat.div_add_mod (N + S - 1) S
  have hmod : (N + S - 1) % S < S := Nat.mod_lt _ hS
  have h1 : N ≤ q * S := by
    have hcomm : q * S = S * q := Nat.mul_comm ..
    rw [hcomm]
    set m := S * q with hm
    omega
  have h2 : q * S < N + S := by
    have hcomm : q * S = S * q := Nat.mul_comm ..
    rw [hcomm]
    set m := S * q with hm
    omega
  unfold totalPages
  apply le_antisymm
  · rw [Int.ceil_le, div_le_iff₀ hS']
    exact_mod_cast h1
  · have hlt : ((q : ℤ) - 1) < ⌈(N : ℚ) / (S : ℚ)⌉ := by
      rw [Int.lt_ceil, lt_div_iff₀ hS']
      have h2' : (q : ℚ) * S < (N : ℚ) + S := by exact_mod_cast h2
      push_cast
      nlinarith
    omega

theorem usePagination.paginatedData_eq_take_drop (items : List α)
    (p S : ℕ) (hp : 1 ≤ p) :
    paginatedData items p S = (items.take (p * S)).drop ((p - 1) * S) := by
  unfold paginatedData
  have hps : p * S = (p - 1) * S + S := by
    have hp' : p = (p - 1) + 1 := by omega
    calc p * S = ((p - 1) + 1) * S := by rw [← hp']
    _ = (p - 1) * S + S := Nat.succ_mul ..
  rw [hps, ← List.take_drop]
  have hlen : (items.drop ((p - 1) * S)).length = items.length - (p - 1) * S :=
    List.length_drop ..
  generalize hgen : (p - 1) * S = a at *
  rcases le_total S (items.length - a) with h | h
  · have hms : min (a + S) items.length - a = S := by omega
    rw [hms]
  · have hms : min (a + S) items.length - a = items.length - a := by omega
    rw [hms, ← hlen, List.take_length, List.take_of_length_le (by omega)]

theorem usePagination.paginatedData_length_le (items : List α) (p S : ℕ) :
    (paginatedData items p S).length ≤ S := by
  unfold paginatedData
  generalize (p - 1) * S = a
  simp only [List.length_take, List.length_drop]
  omega

theorem usePagination.one_le_totalPages (N S : ℕ) (hN : 0 < N) (hS : 0 < S) :
    1 ≤ totalPages N S := by
  unfold totalPages
  have h1 : (0 : ℚ) < (N : ℚ) / (S : ℚ) :=
    div_pos (by exact_mod_cast hN) (by exact_mod_cast hS)
  have h2 : (0 : ℤ) < ⌈(N : ℚ) / (S : ℚ)⌉ := Int.lt_ceil.mpr (by simpa using h1)
  omega

/-- Claim C5: for the pagination calculator of
`src/src/components/SEODashboard.tsx`, with `N` items, page size `S > 0`
and current page `p ≥ 1`, `totalPages` is the ceiling of `N / S`, the
visible slice is `items[(p-1)*S .. p*S)` intersected with the sequence
bounds (formally: take the first `p*S` items, then drop the first
`(p-1)*S`), and the visible slice never holds more than `S` items. -/
theorem C5_pagination_slice_and_pages (items : List α) (p S : ℕ)
    (hS : 0 < S) (hp : 1 ≤ p) :
    usePagination.totalPages items.length S =
      (((items.length + S - 1) / S : ℕ) : ℤ) ∧
    usePagination.paginatedData items p S =
      (items.take (p * S)).drop ((p - 1) * S) ∧
    (usePagination.paginatedData items p S).length ≤ S :=
  ⟨usePagination.totalPages_eq_ceilDiv items.length S hS,
    usePagination.paginatedData_eq_take_drop items p S hp,
    usePagination.paginatedData_length_le items p S⟩

/-- Witness for C5: 23 items of page size 10 on page 3. -/
theorem C5_witness :
    (0 < 10 ∧ 1 ≤ 3) ∧
    (usePagination.totalPages (List.range 23).length 10 =
        (((List.range 23).length + 10 - 1) / 10 : ℕ) ∧
      usePagination.paginatedData (List.range 23) 3 10 =
        ((List.range 23).take (3 * 10)).drop ((3 - 1) * 10) ∧
      (usePagination.paginatedData (List.range 23) 3 10).length ≤ 10) :=
  ⟨⟨by decide, by decide⟩,
    C5_pagination_slice_and_pages (List.range 23) 3 10 (by decide) (by decide)⟩

/-- Claim C6: with a nonempty item list and positive page size (so that
`totalPages ≥ 1`), `goToPage(n)` clamps any integer `n` into
`[1, totalPages]`: the result is always in that range, requests below 1
land on page 1, requests above `totalPages` land on `totalPages`, and
in-range requests are honoured unchanged. -/
theorem C6_goToPage_clamps (N S : ℕ) (n : ℤ) (hN : 0 < N) (hS : 0 < S) :
    1 ≤ usePagination.goToPage (usePagination.totalPages N S) n ∧
    usePagination.goToPage (usePagination.totalPages N S) n ≤
      usePagination.totalPages N S ∧
    (n < 1 → usePagination.goToPage (usePagination.totalPages N S) n = 1) ∧
    (usePagination.totalPages N S < n →
      usePagination.goToPage (usePagination.totalPages N S) n =
        usePagination.totalPages N S) ∧
    (1 ≤ n → n ≤ usePagination.totalPages N S →
      usePagination.goToPage (usePagination.totalPages N S) n = n) := by
  have htp := usePagination.one_le_totalPages N S hN hS
  unfold usePagination.goToPage
  generalize usePagination.totalPages N S = tp at *
  refine ⟨by omega, by omega, fun h => by omega, fun h => by omega,
    fun h1 h2 => by omega⟩

/-- Witness for C6: 23 items, page size 10, request page -4 (clamped
to 1). -/
theorem C6_witness :
    ((0 : ℕ) < 23 ∧ (0 : ℕ) < 10) ∧
    ((-4 : ℤ) < 1 →
      usePagination.goToPage (usePagination.totalPages 23 10) (-4) = 1) :=
  ⟨⟨by decide, by decide⟩, (C6_goToPage_clamps 23 10 (-4) (by decide)
    (by decide)).2.2.1⟩

/-- Claim C7: `changePageSize(n)` (exposed as `setPageSize`) sets the page
size to `n` and resets the current page to 1, for every prior state; the
visible slice recomputed at the new state is the first page of `n` items. -/
theorem C7_setPageSize_resets_page (s : usePagination.PaginationState)
    (n : ℕ) (items : List α) :
    (usePagination.changePageSize n s).pageSize = n ∧
    (usePagination.changePageSize n s).currentPage = 1 ∧
    usePagination.paginatedData items
      ((usePagination.changePageSize n s).currentPage).toNat
      (usePagination.changePageSize n s).pageSize = items.take n := by
  refine ⟨rfl, rfl, ?_⟩
  show usePagination.paginatedData items 1 n = items.take n
  unfold usePagination.paginatedData
  simp only [Nat.sub_self, Nat.zero_mul, List.drop_zero, Nat.zero_add,
    Nat.sub_zero]
  rcases le_total n items.length with h | h
  · rw [min_eq_left h]
  · rw [min_eq_right h, List.take_of_length_le h,
      List.take_of_length_le (le_refl _)]

/-- Witness for C7: changing the page size to 25 from page 3 of size 10,
over 30 items. -/
theorem C7_witness :
    (usePagination.changePageSize 25
        { currentPage := 3, pageSize := 10 }).pageSize = 25 ∧
    (usePagination.changePageSize 25
        { currentPage := 3, pageSize := 10 }).currentPage = 1 ∧
    usePagination.paginatedData (List.range 30)
      ((usePagination.changePageSize 25
          { currentPage := 3, pageSize := 10 }).currentPage).toNat
      (usePagination.changePageSize 25
          { currentPage := 3, pageSize := 10 }).pageSize =
      (List.range 30).take 25 :=
  C7_setPageSize_resets_page { currentPage := 3, pageSize := 10 } 25
    (List.range 30)

/-- Claim C8: `fetchSEOData` produces an assembled `SEOData` exactly when
all five endpoint round-trips succeeded; if any one of them fails (request
failure or malformed structure), the whole operation signals a fetch error
instead of returning a dataset. -/
theorem C8_fetch_error_propagation (dom : Except String (List DomainInfo))
    (br nbr : Except String (List KeywordTypeIn))
    (lt : Except String (List LongTailKeyword))
    (cp : Except String (List Competitor)) :
    ((∃ s, APIService.fetchSEOData dom br nbr lt cp = Except.ok s) ↔
      ((∃ a, dom = Except.ok a) ∧ (∃ b, br = Except.ok b) ∧
        (∃ c, nbr = Except.ok c) ∧ (∃ d, lt = Except.ok d) ∧
        (∃ e, cp = Except.ok e))) ∧
    (∀ a b c d e, dom = Except.ok a → br = Except.ok b →
      nbr = Except.ok c → lt = Except.ok d → cp = Except.ok e →
      APIService.fetchSEOData dom br nbr lt cp = Except.ok
        { domainInfo := a
          keywordTypesBrand := b.map APIService.withColor
          keywordTypesNonBrand := c.map APIService.withColor
          longTailKeywords := d
          competitors := e }) := by
  constructor
  · cases dom <;> cases br <;> cases nbr <;> cases lt <;> cases cp <;>
      simp [APIService.fetchSEOData]
  · intro a b c d e ha hb hc hd he
    subst ha; subst hb; subst hc; subst hd; subst he
    rfl

/-- Witness for C8: the second endpoint fails, so the whole fetch signals
an error and no dataset is produced. -/
theorem C8_witness :
    (∃ s, APIService.fetchSEOData (Except.ok []) (Except.error "HTTP 500")
        (Except.ok []) (Except.ok []) (Except.ok []) = Except.ok s) ↔
      ((∃ a, (Except.ok ([] : List DomainInfo) : Except String _) =
          Except.ok a) ∧
        (∃ b, (Except.error "HTTP 500" : Except String (List KeywordTypeIn)) =
          Except.ok b) ∧
        (∃ c, (Except.ok ([] : List KeywordTypeIn) : Except String _) =
          Except.ok c) ∧
        (∃ d, (Except.ok ([] : List LongTailKeyword) : Except String _) =
          Except.ok d) ∧
        (∃ e, (Except.ok ([] : List Competitor) : Except String _) =
          Except.ok e)) :=
  (C8_fetch_error_propagation (Except.ok []) (Except.error "HTTP 500")
    (Except.ok []) (Except.ok []) (Except.ok [])).1

/-- Claim C9: for a loaded dataset and a selection whose composite key is
`k`, the derived view holds: the `DomainInfo` row whose key field equals
`k` (or none, when no row matches), the brand and non-brand
`KeywordTypeShare` rows with key `k` (separately), the `LongTailKeyword`
rows with key `k`, and the `Competitor` rows matched on the bare selected
country code rather than on `k`. -/
theorem C9_derived_view_join_keys (d : SEOData) (country lang k : String)
    (hk : getCurrentTag country lang = some k) :
    (∀ x, (transformedData (some d) country lang).domainInfo = some x →
      x ∈ d.domainInfo ∧ x.country_code = k) ∧
    ((transformedData (some d) country lang).domainInfo = none ↔
      ∀ x ∈ d.domainInfo, x.country_code ≠ k) ∧
    (∀ x, x ∈ (transformedData (some d) country lang).brandKeywords ↔
      x ∈ d.keywordTypesBrand ∧ x.country_code = k) ∧
    (∀ x, x ∈ (transformedData (some d) country lang).nonBrandKeywords ↔
      x ∈ d.keywordTypesNonBrand ∧ x.country_code = k) ∧
    (∀ x, x ∈ (transformedData (some d) country lang).longTailKeywords ↔
      x ∈ d.longTailKeywords ∧ x.country_code = k) ∧
    (∀ x, x ∈ (transformedData (some d) country lang).competitors ↔
      x ∈ d.competitors ∧ x.country_code = country) := by
  simp only [transformedData, hk]
  refine ⟨?_, ?_, ?_, ?_, ?_, ?_⟩
  · intro x hx
    have h1 := List.mem_of_find?_eq_some hx
    have h2 := List.find?_some hx
    simp only [decide_eq_true_eq, Option.some_inj] at h2
    exact ⟨h1, h2⟩
  · rw [List.find?_eq_none]
    constructor
    · intro h x hx
      have := h x hx
      simpa using this
    · intro h x hx
      simpa using h x hx
  · intro x
    simp [List.mem_filter]
  · intro x
    simp [List.mem_filter]
  · intro x
    simp [List.mem_filter]
  · intro x
    simp [List.mem_filter]

/-- Witness for C9: selection Poland/native (composite key `PL-PL`) over
the sample dataset; competitors join on the bare code `PL`. -/
theorem C9_witness :
    getCurrentTag "PL" "native" = some "PL-PL" ∧
    (∀ x, x ∈ (transformedData (some sampleData) "PL" "native").competitors ↔
      x ∈ sampleData.competitors ∧ x.country_code = "PL") :=
  ⟨by rfl,
    (C9_derived_view_join_keys sampleData "PL" "native" "PL-PL"
      (by rfl)).2.2.2.2.2⟩

/-- Claim C10: on an empty item sequence the pagination calculator reports
`totalPages = 0`, an empty visible slice, `startItem = 0`, `hasNextPage`
and `hasPreviousPage` both false at the initial page 1, and `goToPage`
always yields page 1 (outside the nominal `[1, totalPages]` range). -/
theorem C10_empty_sequence {α : Type} (S p : ℕ) (n : ℤ) :
    usePagination.totalPages 0 S = 0 ∧
    usePagination.paginatedData ([] : List α) p S = [] ∧
    usePagination.startItem 0 p S = 0 ∧
    usePagination.initialPage = 1 ∧
    usePagination.hasNextPage usePagination.initialPage
      (usePagination.totalPages 0 S) = false ∧
    usePagination.hasPreviousPage usePagination.initialPage = false ∧
    usePagination.goToPage (usePagination.totalPages 0 S) n = 1 := by
  have htp : usePagination.totalPages 0 S = 0 := by
    unfold usePagination.totalPages
    simp
  refine ⟨htp, ?_, rfl, rfl, ?_, rfl, ?_⟩
  · unfold usePagination.paginatedData
    simp
  · rw [htp]; rfl
  · rw [htp]
    unfold usePagination.goToPage
    omega

/-- Witness for C10: empty item list, page size 10, `goToPage 7`. -/
theorem C10_witness :
    usePagination.totalPages 0 10 = 0 ∧
    usePagination.paginatedData ([] : List ℕ) 2 10 = [] ∧
    usePagination.startItem 0 2 10 = 0 ∧
    usePagination.initialPage = 1 ∧
    usePagination.hasNextPage usePagination.initialPage
      (usePagination.totalPages 0 10) = false ∧
    usePagination.hasPreviousPage usePagination.initialPage = false ∧
    usePagination.goToPage (usePagination.totalPages 0 10) 7 = 1 :=
  C10_empty_sequence 10 2 7

end SEODash
